import Mathlib

/-!
# Outline and pixelation passes of `src/js/main.js`

A shallow embedding of the two fragment shaders and of the stateful code around them
(`MinimalOutlinePass`, `init`, `loadModel`, `onResize`).

Conventions of the embedding:

* GLSL `float` values are exact rationals (`ℚ`); rounding, infinities and NaN are outside the
  model.  Division by zero is `0` in `ℚ`, so statements that divide name their positivity
  assumptions explicitly.
* A `sampler2D` is the function that `texture2D` evaluates: coordinate to RGBA.
* JavaScript objects are identified by a natural number; mutable fields live in explicit state.
-/

namespace OutlineShader

/-! ## GLSL values -/

/-- GLSL `vec2`. -/
abbrev Vec2 := ℚ × ℚ

/-- GLSL `vec3`. -/
abbrev Vec3 := ℚ × ℚ × ℚ

/-- GLSL `vec4`, with components `r`, `g`, `b`, `a`. -/
structure Vec4 where
  r : ℚ
  g : ℚ
  b : ℚ
  a : ℚ
deriving DecidableEq

/-- GLSL `sampler2D` together with `texture2D`: the colour found at a coordinate. -/
abbrev Sampler := Vec2 → Vec4

/-- GLSL `vec4(v, w)` for a `vec3` and a scalar. -/
def vec4of (v : Vec3) (w : ℚ) : Vec4 := ⟨v.1, v.2.1, v.2.2, w⟩

/-- GLSL `step(edge, x)`: `0.0` if `x < edge`, else `1.0`. -/
def step (edge x : ℚ) : ℚ := if x < edge then 0 else 1

/-- GLSL `scalar / vec2`, componentwise. -/
def sdiv (s : ℚ) (v : Vec2) : Vec2 := (s / v.1, s / v.2)

/-- GLSL `vec2 / vec2`, componentwise. -/
def vdiv (u v : Vec2) : Vec2 := (u.1 / v.1, u.2 / v.2)

/-- GLSL `vec2 * vec2`, componentwise. -/
def vmul (u v : Vec2) : Vec2 := (u.1 * v.1, u.2 * v.2)

/-- GLSL `vec2 + vec2`. -/
def vadd (u v : Vec2) : Vec2 := (u.1 + v.1, u.2 + v.2)

/-- GLSL `floor` on a `vec2`, componentwise. -/
def vfloor (u : Vec2) : Vec2 := ((⌊u.1⌋ : ℤ), (⌊u.2⌋ : ℤ))

/-! ## Edge-detection fragment shader (`getEdgeDetectionMaterial`, lines 68-78) -/

/-- The shader local `invSize = outlineSize / texSize`.  The rational quotient agrees with the
shader only when both components of `texSize` are nonzero (a zero component gives an infinite
or undefined offset on the GPU), so every statement about offsets assumes them positive. -/
def invSize (texSize : Vec2) (outlineSize : ℚ) : Vec2 := sdiv outlineSize texSize

/-- The shader local `c`: red channel of the mask at `vUv`. -/
def maskC (maskTexture : Sampler) (vUv : Vec2) : ℚ := (maskTexture vUv).r

/-- The shader local `l`: red channel of the mask at `vUv + vec2(-invSize.x, 0)`. -/
def maskL (maskTexture : Sampler) (texSize : Vec2) (outlineSize : ℚ) (vUv : Vec2) : ℚ :=
  (maskTexture (vadd vUv (-(invSize texSize outlineSize).1, 0))).r

/-- The shader local `r`: red channel of the mask at `vUv + vec2(invSize.x, 0)`. -/
def maskR (maskTexture : Sampler) (texSize : Vec2) (outlineSize : ℚ) (vUv : Vec2) : ℚ :=
  (maskTexture (vadd vUv ((invSize texSize outlineSize).1, 0))).r

/-- The shader local `u`: red channel of the mask at `vUv + vec2(0, invSize.y)`. -/
def maskU (maskTexture : Sampler) (texSize : Vec2) (outlineSize : ℚ) (vUv : Vec2) : ℚ :=
  (maskTexture (vadd vUv (0, (invSize texSize outlineSize).2))).r

/-- The shader local `d`: red channel of the mask at `vUv + vec2(0, -invSize.y)`. -/
def maskD (maskTexture : Sampler) (texSize : Vec2) (outlineSize : ℚ) (vUv : Vec2) : ℚ :=
  (maskTexture (vadd vUv (0, -(invSize texSize outlineSize).2))).r

/-- The argument of `step` on line 76: `abs(c-l)+abs(c-r)+abs(c-u)+abs(c-d)`. -/
def edgeStrength (maskTexture : Sampler) (texSize : Vec2) (outlineSize : ℚ) (vUv : Vec2) : ℚ :=
  |maskC maskTexture vUv - maskL maskTexture texSize outlineSize vUv|
    + |maskC maskTexture vUv - maskR maskTexture texSize outlineSize vUv|
    + |maskC maskTexture vUv - maskU maskTexture texSize outlineSize vUv|
    + |maskC maskTexture vUv - maskD maskTexture texSize outlineSize vUv|

/-- The edge-detection `main()`: the value written to `gl_FragColor`. -/
def edgeDetectionFragment (maskTexture sceneTexture : Sampler) (texSize : Vec2)
    (edgeColor : Vec3) (outlineSize : ℚ) (vUv : Vec2) : Vec4 :=
  let sceneColor := sceneTexture vUv
  let edge := step (1 / 10) (edgeStrength maskTexture texSize outlineSize vUv)
  if edge > 0 then vec4of edgeColor 1 else sceneColor

/-! ## Pixelation fragment shader (`PixelShader.fragmentShader`, lines 132-136) -/

/-- The shader local `coord = dxy * floor(vUv / dxy)` with `dxy = pixelSize / resolution`. -/
def pixelCoord (resolution : Vec2) (pixelSize : ℚ) (vUv : Vec2) : Vec2 :=
  let dxy := sdiv pixelSize resolution
  vmul dxy (vfloor (vdiv vUv dxy))

/-- The pixelation `main()`: the value written to `gl_FragColor`. -/
def pixelFragment (tDiffuse : Sampler) (resolution : Vec2) (pixelSize : ℚ) (vUv : Vec2) : Vec4 :=
  if pixelSize ≤ 1 then tDiffuse vUv else tDiffuse (pixelCoord resolution pixelSize vUv)

/-- Centre of output pixel `(i, j)` at resolution `(W, H)`: the `vUv` the rasteriser supplies. -/
def pixelCentre (W H : ℚ) (i j : ℕ) : Vec2 := (((i : ℚ) + 1 / 2) / W, ((j : ℚ) + 1 / 2) / H)

/-- A mask that is `0` left of the origin and `1/10` elsewhere, on every channel. -/
def stepMask : Sampler := fun uv => if uv.1 < 0 then ⟨0, 0, 0, 0⟩ else ⟨1 / 10, 1 / 10, 1 / 10, 1⟩

/-- A mask whose red channel is 1/2 at the origin and differs from it by 1/100 to the left,
2/100 to the right, 3/100 straight above and 4/100 straight below. -/
def crossMask : Sampler := fun uv =>
  if uv.1 < 0 then ⟨51 / 100, 0, 0, 1⟩
  else if 0 < uv.1 then ⟨52 / 100, 0, 0, 1⟩
  else if 0 < uv.2 then ⟨53 / 100, 0, 0, 1⟩
  else if uv.2 < 0 then ⟨54 / 100, 0, 0, 1⟩
  else ⟨1 / 2, 0, 0, 1⟩

/-- A scene texture that is opaque white everywhere. -/
def whiteScene : Sampler := fun _ => ⟨1, 1, 1, 1⟩

/-- A texture whose red channel is the x coordinate and green channel the y coordinate. -/
def gradient : Sampler := fun uv => ⟨uv.1, uv.2, 0, 1⟩

/-! ## Scene graph (three.js `Object3D`, as far as `main.js` uses it) -/

/-- A scene-graph node: object identity, its `isMesh` property and its `children` array. -/
inductive Object3D where
  | mk (id : ℕ) (isMesh : Bool) (children : List Object3D)

namespace Object3D

/-- Identity of the object. -/
def id : Object3D → ℕ
  | mk i _ _ => i

/-- The `isMesh` property. -/
def isMesh : Object3D → Bool
  | mk _ m _ => m

/-- The `children` array. -/
def children : Object3D → List Object3D
  | mk _ _ cs => cs

mutual
/-- The three.js method `traverse(callback)`: the callback runs on the object itself, then
the method recurses into each child in order. -/
def traverse {σ : Type} (callback : Object3D → σ → σ) : Object3D → σ → σ
  | mk i m cs, s => traverseAll callback cs (callback (mk i m cs) s)
/-- The child loop of `traverse`. -/
def traverseAll {σ : Type} (callback : Object3D → σ → σ) : List Object3D → σ → σ
  | [], s => s
  | c :: cs, s => traverseAll callback cs (traverse callback c s)
end

mutual
/-- Every object of the graph rooted here, in the order `traverse` visits them. -/
def objects : Object3D → List Object3D
  | mk i m cs => mk i m cs :: objectsAll cs
/-- The objects of a list of subtrees. -/
def objectsAll : List Object3D → List Object3D
  | [] => []
  | c :: cs => objects c ++ objectsAll cs
end

/-- Identities of the objects of the graph, in visiting order. -/
def ids (root : Object3D) : List ℕ := (objects root).map id

end Object3D

/-- Mutable scene fields that `render` reads and writes: `scene.background` (`none` is `null`,
otherwise a handle of the colour or texture) and the `visible` flag of every object. -/
structure SceneState where
  background : Option ℕ
  visible : ℕ → Bool

/-- The assignment `obj.visible = v`. -/
def SceneState.setVisible (s : SceneState) (obj : ℕ) (v : Bool) : SceneState :=
  { s with visible := Function.update s.visible obj v }

mutual
/-- Objects that a renderer draws: the own flag and the flags of all ancestors are true
(`inherited` is the conjunction of the ancestors' flags). -/
def effectivelyVisible (s : SceneState) (inherited : Bool) : Object3D → List ℕ
  | .mk i _ cs =>
    (if inherited && s.visible i then [i] else [])
      ++ effectivelyVisibleAll s (inherited && s.visible i) cs
/-- Effective visibility over a list of subtrees. -/
def effectivelyVisibleAll (s : SceneState) (inherited : Bool) : List Object3D → List ℕ
  | [] => []
  | c :: cs => effectivelyVisible s inherited c ++ effectivelyVisibleAll s inherited cs
end

/-! ## `MinimalOutlinePass` (lines 15-81) -/

/-- A `THREE.WebGLRenderTarget`: identity and size.  Its texture is referred to by the same
identity. -/
structure RenderTarget where
  id : ℕ
  width : ℚ
  height : ℚ
deriving DecidableEq

/-- The three.js method `WebGLRenderTarget.setSize(w, h)`: the target takes the new size. -/
def RenderTarget.setSize (t : RenderTarget) (w h : ℚ) : RenderTarget :=
  { t with width := w, height := h }

/-- The uniforms of `edgeDetectionMaterial` (lines 53-59); a texture uniform holds `null`
(`none`) or the identity of the render target that owns the texture. -/
structure Uniforms where
  maskTexture : Option ℕ
  sceneTexture : Option ℕ
  texSize : Vec2
  edgeColor : Vec3
  outlineSize : ℚ
deriving DecidableEq

/-- Fields of a `MinimalOutlinePass`: the four fields inherited from three.js `Pass` and the
ones the constructor sets.  `renderScene` and `renderCamera` are references to shared objects
and are passed to `render` as part of the world it runs in. -/
structure MinimalOutlinePass where
  enabled : Bool
  needsSwap : Bool
  clear : Bool
  renderToScreen : Bool
  resolution : Vec2
  selectedObjects : List ℕ
  renderTargetMaskBuffer : RenderTarget
  uniforms : Uniforms
deriving DecidableEq

/-- Method `getEdgeDetectionMaterial` (lines 51-59): the initial uniforms. -/
def getEdgeDetectionMaterial (resolution : Vec2) : Uniforms :=
  { maskTexture := none
    sceneTexture := none
    texSize := (resolution.1, resolution.2)
    edgeColor := (0, 0, 0)
    outlineSize := 1 }

/-- The constructor (lines 16-25).  `super()` gives the `Pass` defaults `enabled = true`,
`needsSwap = true`, `clear = false`, `renderToScreen = false`; `maskId` is the identity of the
freshly allocated mask render target; a missing `selectedObjects` argument becomes `[]`. -/
def MinimalOutlinePass.new (resolution : Vec2) (selectedObjects : Option (List ℕ))
    (maskId : ℕ) : MinimalOutlinePass :=
  { enabled := true
    needsSwap := true
    clear := false
    renderToScreen := false
    resolution := resolution
    selectedObjects := selectedObjects.getD []
    renderTargetMaskBuffer := ⟨maskId, resolution.1, resolution.2⟩
    uniforms := getEdgeDetectionMaterial resolution }

/-- Method `setSize(w, h)` (lines 26-29). -/
def MinimalOutlinePass.setSize (p : MinimalOutlinePass) (w h : ℚ) : MinimalOutlinePass :=
  { p with
    renderTargetMaskBuffer := p.renderTargetMaskBuffer.setSize w h
    uniforms := { p.uniforms with texSize := (w, h) } }

/-- What `renderer.render` is asked to draw: the scene graph in its current state (line 43),
or the full-screen quad carrying the edge-detection material (line 49). -/
inductive Drawable where
  | scene (root : Object3D) (s : SceneState)
  | quad (u : Uniforms)

/-- The `renderer` argument of `render`: the three methods the pass calls, each of which
either raises (`Except.error`) or yields the next state of the graphics context `G`. -/
structure Renderer (G : Type) where
  setRenderTarget : Option ℕ → G → Except String G
  clear : G → Except String G
  render : Drawable → G → Except String G

/-- Everything `render` can read or write. -/
structure World (G : Type) where
  root : Object3D
  scene : SceneState
  pass : MinimalOutlinePass
  gpu : G

/-- How control leaves a JavaScript call. -/
inductive Completion where
  | returned
  | threw (msg : String)
deriving DecidableEq

/-- The callback of `traverse` on lines 35-40; the state is `oldVisible` and the scene. -/
def maskCallback (selectedObjects : List ℕ) (obj : Object3D)
    (st : List (ℕ × Bool) × SceneState) : List (ℕ × Bool) × SceneState :=
  if obj.isMesh then
    (st.1 ++ [(obj.id, st.2.visible obj.id)],
      st.2.setVisible obj.id (decide (obj.id ∈ selectedObjects)))
  else st

/-- Lines 32-40: null the background and override the mesh flags; yields `oldVisible` and the
scene state in which the mask is rendered. -/
def prepareMask (root : Object3D) (selectedObjects : List ℕ) (s : SceneState) :
    List (ℕ × Bool) × SceneState :=
  root.traverse (maskCallback selectedObjects) ([], { s with background := none })

/-- Lines 41-43, the render step into the mask buffer. -/
def renderMask {G : Type} (renderer : Renderer G) (mask : RenderTarget) (root : Object3D)
    (s : SceneState) (g : G) : Except String G :=
  match renderer.setRenderTarget (some mask.id) g with
  | .error e => .error e
  | .ok g1 =>
    match renderer.clear g1 with
    | .error e => .error e
    | .ok g2 => renderer.render (.scene root s) g2

/-- Line 44, `oldVisible.forEach(([obj, v]) => (obj.visible = v))`. -/
def restoreVisible (oldVisible : List (ℕ × Bool)) (s : SceneState) : SceneState :=
  oldVisible.foldl (fun acc e => acc.setVisible e.1 e.2) s

/-- Lines 48-49: bind the output target and draw the full-screen quad. -/
def renderQuad {G : Type} (renderer : Renderer G) (output : Option ℕ) (u : Uniforms) (g : G) :
    Except String G :=
  match renderer.setRenderTarget output g with
  | .error e => .error e
  | .ok g1 => renderer.render (.quad u) g1

/-- Method `render(renderer, writeBuffer, readBuffer)` (lines 30-50).  A raising renderer call
ends the method at that point with the mutations made so far; the graphics context is then
reported as it was before the failing group of renderer calls. -/
def render {G : Type} (renderer : Renderer G) (writeBuffer readBuffer : RenderTarget)
    (w : World G) : Completion × World G :=
  if w.pass.selectedObjects.length = 0 then (.returned, w)
  else
    let oldBackground := w.scene.background
    let prepared := prepareMask w.root w.pass.selectedObjects w.scene
    let oldVisible := prepared.1
    match renderMask renderer w.pass.renderTargetMaskBuffer w.root prepared.2 w.gpu with
    | .error e => (.threw e, { w with scene := prepared.2 })
    | .ok g3 =>
      let restored := { restoreVisible oldVisible prepared.2 with background := oldBackground }
      let u := { w.pass.uniforms with
                 maskTexture := some w.pass.renderTargetMaskBuffer.id
                 sceneTexture := some readBuffer.id }
      let pass := { w.pass with uniforms := u }
      match renderQuad renderer (if w.pass.renderToScreen then none else some writeBuffer.id)
          u g3 with
      | .error e => (.threw e, { w with scene := restored, pass := pass, gpu := g3 })
      | .ok g5 => (.returned, { w with scene := restored, pass := pass, gpu := g5 })

/-! ## Renderers -/

/-- State of a graphics context: the bound render target (`none` is the canvas) and the image
held by each target. -/
structure GPU where
  bound : Option ℕ
  image : Option ℕ → Sampler

/-- The image a texture uniform samples; a `null` texture samples as opaque black. -/
def GPU.texture (g : GPU) : Option ℕ → Sampler
  | none => fun _ => ⟨0, 0, 0, 1⟩
  | some t => g.image (some t)

/-- A renderer that never raises: `setRenderTarget` rebinds, `clear` fills the bound target
with transparent black, drawing a scene stores `rasterize` of it, and drawing the quad stores
the edge-detection shader evaluated at every coordinate. -/
def webgl (rasterize : Object3D → SceneState → Sampler) : Renderer GPU :=
  { setRenderTarget := fun t g => .ok { g with bound := t }
    clear := fun g => .ok { g with image := Function.update g.image g.bound (fun _ => ⟨0, 0, 0, 0⟩) }
    render := fun d g =>
      match d with
      | .scene root s => .ok { g with image := Function.update g.image g.bound (rasterize root s) }
      | .quad u =>
        let out := edgeDetectionFragment (g.texture u.maskTexture) (g.texture u.sceneTexture)
          u.texSize u.edgeColor u.outlineSize
        .ok { g with image := Function.update g.image g.bound out } }

/-- A renderer whose context is the log of scene states it was asked to draw. -/
def probe : Renderer (List SceneState) :=
  { setRenderTarget := fun _ g => .ok g
    clear := fun g => .ok g
    render := fun d g =>
      match d with
      | .scene _ s => .ok (g ++ [s])
      | .quad _ => .ok g }

/-- A renderer whose scene draw raises (for instance a lost context). -/
def lostContext : Renderer Unit :=
  { setRenderTarget := fun _ g => .ok g
    clear := fun g => .ok g
    render := fun d g =>
      match d with
      | .scene _ _ => .error "context lost"
      | .quad _ => .ok g }

/-- What the next stage of the chain reads after this pass ran with `writeBuffer` and
`readBuffer`: three.js `EffectComposer.render` swaps the two buffers after a pass whose
`needsSwap` is true, so the next stage then reads the former write buffer. -/
def nextStageInput (p : MinimalOutlinePass) (writeBuffer readBuffer : RenderTarget) (g : GPU) :
    Sampler :=
  if p.needsSwap then g.image (some writeBuffer.id) else g.image (some readBuffer.id)

/-! ## Application (lines 86-230) -/

/-- The element `.jscontainer`, as far as the code reads it; the browser's layout owns it. -/
structure Container where
  clientWidth : ℚ
  clientHeight : ℚ
deriving DecidableEq

/-- The pixelation `ShaderPass`: its `enabled` flag and the uniforms `resolution` and
`pixelSize` (`tDiffuse` is bound by the pass itself when it renders). -/
structure PixelPass where
  enabled : Bool
  resolution : Vec2
  pixelSize : ℚ
deriving DecidableEq

/-- The module-level variables and the fields of the objects they point to that `init`,
`onResize` and `loadModel` read or write.  Camera position, model position and the orbit
controls (`centerModel`) are not part of the state. -/
structure App where
  container : Container
  pixelRatio : ℚ
  rendererSize : Vec2
  cameraAspect : ℚ
  composerSize : Vec2
  outlinePass : MinimalOutlinePass
  pixelPass : PixelPass
  scene : Object3D
  sceneState : SceneState
  currentModel : Option Object3D
  wireframe : ℕ → Bool
  paramsWireframe : Bool

/-- Remove the first child with the given identity (`indexOf` followed by `splice`). -/
def removeChild : List Object3D → ℕ → List Object3D
  | [], _ => []
  | c :: cs, i => if c.id = i then cs else c :: removeChild cs i

/-- The three.js method `remove(object)` on a parent. -/
def Object3D.remove : Object3D → Object3D → Object3D
  | .mk i m cs, obj => .mk i m (removeChild cs obj.id)

/-- The three.js method `add(object)` on a parent: the object leaves its parent and is pushed
at the end of the children. -/
def Object3D.add : Object3D → Object3D → Object3D
  | .mk i m cs, obj => .mk i m (removeChild cs obj.id ++ [obj])

/-- The three.js method `EffectComposer.setSize(w, h)`: the composer records the size and
forwards the size in device pixels to every pass; of the passes in the chain only the outline
pass keeps state of its own that this file tracks. -/
def composerSetSize (a : App) (w h : ℚ) : App :=
  { a with
    composerSize := (w, h)
    outlinePass := a.outlinePass.setSize (w * a.pixelRatio) (h * a.pixelRatio) }

/-- The initial scene graph built by `init` (lines 110, 144-158): the scene (0) holding the
ambient light (1) and the light group (2) with three lights and their targets (3-8). -/
def initialScene : Object3D :=
  .mk 0 false
    [ .mk 1 false [],
      .mk 2 false
        [.mk 3 false [], .mk 4 false [], .mk 5 false [], .mk 6 false [],
         .mk 7 false [], .mk 8 false []] ]

/-- Function `init` (lines 107-165), for the container found in the document.  A fresh
renderer has pixel ratio 1; `composer.addPass` calls the pass's `setSize` with the composer's
size; every new object is visible and the scene has no background. -/
def init (container : Container) : App :=
  let w := container.clientWidth
  let h := container.clientHeight
  let pixelRatio : ℚ := 1
  let outlinePass := MinimalOutlinePass.new (w, h) none 3
  { container := container
    pixelRatio := pixelRatio
    rendererSize := (w, h)
    cameraAspect := w / h
    composerSize := (w, h)
    outlinePass := outlinePass.setSize (w * pixelRatio) (h * pixelRatio)
    pixelPass := { enabled := false, resolution := (w, h), pixelSize := 0 }
    scene := initialScene
    sceneState := { background := none, visible := fun _ => true }
    currentModel := none
    wireframe := fun _ => false
    paramsWireframe := false }

/-- Function `onResize` (lines 223-230). -/
def onResize (a : App) : App :=
  let w := a.container.clientWidth
  let h := a.container.clientHeight
  let a1 := { a with cameraAspect := w / h }
  let a2 := { a1 with rendererSize := (w, h) }
  let a3 := composerSetSize a2 w h
  let a4 := { a3 with outlinePass := a3.outlinePass.setSize w h }
  { a4 with pixelPass := { a4.pixelPass with resolution := (w, h) } }

/-- Line 198, the synchronous part of `loadModel` before the loader is started. -/
def loadModelStart (a : App) : App :=
  match a.currentModel with
  | some m =>
    { a with
      scene := a.scene.remove m
      outlinePass := { a.outlinePass with selectedObjects := [] } }
  | none => a

/-- Lines 199-206, the success callback of the loader, run with `gltf.scene`. -/
def onModelLoaded (gltfScene : Object3D) (a : App) : App :=
  let wireframe := gltfScene.traverse
    (fun o wf => if o.isMesh then Function.update wf o.id a.paramsWireframe else wf) a.wireframe
  let meshes := gltfScene.traverse
    (fun o (acc : List ℕ) => if o.isMesh then acc ++ [o.id] else acc) []
  { a with
    currentModel := some gltfScene
    wireframe := wireframe
    scene := a.scene.add gltfScene
    outlinePass := { a.outlinePass with selectedObjects := meshes } }

/-- Function `loadModel` (lines 196-207) together with the loader's outcome: `fetched` is
`gltf.scene` when the fetch and parse succeed, and `none` when they fail, in which case the
success callback never runs. -/
def loadModel (_modelName : String) (fetched : Option Object3D) (a : App) : App :=
  let a1 := loadModelStart a
  match fetched with
  | none => a1
  | some gltfScene => onModelLoaded gltfScene a1

/-! ## Sample states -/

/-- Identities of the meshes among a list of objects. -/
def meshIds (objs : List Object3D) : List ℕ := (objs.filter Object3D.isMesh).map Object3D.id

/-- A scene (0) with a mesh (1), a line (2, not a mesh), a group (3) holding a mesh (4), and
another mesh (5). -/
def demoRoot : Object3D :=
  .mk 0 false [.mk 1 true [], .mk 2 false [], .mk 3 false [.mk 4 true []], .mk 5 true []]

/-- The scene has background 7; the group 3 is hidden, every other object is visible. -/
def demoScene : SceneState := { background := some 7, visible := fun i => decide (i ≠ 3) }

/-- An outline pass at 2 by 2 with meshes 1 and 4 selected and mask target 3. -/
def demoPass : MinimalOutlinePass := MinimalOutlinePass.new (2, 2) (some [1, 4]) 3

/-- The composer's write buffer. -/
def demoWrite : RenderTarget := ⟨10, 2, 2⟩

/-- The composer's read buffer. -/
def demoRead : RenderTarget := ⟨11, 2, 2⟩

/-- A graphics context whose read buffer (11) holds the white image and whose other targets
hold transparent black. -/
def demoGPU : GPU :=
  { bound := none
    image := fun t => if t = some 11 then whiteScene else fun _ => ⟨0, 0, 0, 0⟩ }

/-- The sample world over a graphics context. -/
def demoWorld {G : Type} (g : G) : World G := ⟨demoRoot, demoScene, demoPass, g⟩

/-- The world right after `init`: the initial scene and a pass constructed without
`selectedObjects`. -/
def idleWorld : World GPU :=
  ⟨initialScene, { background := none, visible := fun _ => true },
    MinimalOutlinePass.new (2, 2) none 3, demoGPU⟩

/-- A rasteriser that paints every pixel opaque white. -/
def flatRaster : Object3D → SceneState → Sampler := fun _ _ _ => ⟨1, 1, 1, 1⟩

/-- A loaded asset: a root (20) with two meshes (21, 22). -/
def demoModel : Object3D := .mk 20 false [.mk 21 true [], .mk 22 true []]

/-- The application after `init` at 800 by 600 and a successful load of `demoModel`. -/
def demoApp : App := loadModel "test.glb" (some demoModel) (init ⟨800, 600⟩)

/-! ## Shader theorems -/

theorem step_pos_iff (edge x : ℚ) : step edge x > 0 ↔ edge ≤ x := by
  unfold step
  split_ifs with h
  · simp [not_le.mpr h]
  · simp [not_lt.mp h]

theorem edgeDetectionFragment_eq (maskTexture sceneTexture : Sampler) (texSize : Vec2)
    (edgeColor : Vec3) (outlineSize : ℚ) (vUv : Vec2) :
    edgeDetectionFragment maskTexture sceneTexture texSize edgeColor outlineSize vUv
      = if 1 / 10 ≤ edgeStrength maskTexture texSize outlineSize vUv
        then vec4of edgeColor 1 else sceneTexture vUv := by
  unfold edgeDetectionFragment
  simp only [step_pos_iff]

theorem edgeStrength_eq (maskTexture : Sampler) (texSize : Vec2) (outlineSize : ℚ)
    (vUv : Vec2) :
    edgeStrength maskTexture texSize outlineSize vUv
      = |(maskTexture vUv).r - (maskTexture (vUv.1 - outlineSize / texSize.1, vUv.2)).r|
        + |(maskTexture vUv).r - (maskTexture (vUv.1 + outlineSize / texSize.1, vUv.2)).r|
        + |(maskTexture vUv).r - (maskTexture (vUv.1, vUv.2 + outlineSize / texSize.2)).r|
        + |(maskTexture vUv).r - (maskTexture (vUv.1, vUv.2 - outlineSize / texSize.2)).r| := by
  simp only [edgeStrength, maskC, maskL, maskR, maskU, maskD, invSize, sdiv, vadd, add_zero,
    ← sub_eq_add_neg]

theorem crossMask_strength : edgeStrength crossMask (4, 2) 1 (0, 0) = 1 / 10 := by
  rw [edgeStrength_eq]
  norm_num [crossMask, abs_div]

/-- C3, amended: for a `texSize` with positive components the four neighbours lie exactly
`outlineSize` texels from `vUv` along -x, +x, +y and -y; the edge strength is the sum of the
four absolute differences between the mask's red channel at `vUv` and at those neighbours; and
the fragment colour is the edge colour at alpha 1 when that sum is at least 0.1 (the threshold
itself included) and the scene sample at `vUv` when it is below 0.1. -/
theorem edgeDetection_threshold (maskTexture sceneTexture : Sampler) (texSize : Vec2)
    (edgeColor : Vec3) (outlineSize : ℚ) (vUv : Vec2)
    (hx : 0 < texSize.1) (hy : 0 < texSize.2) :
    vmul (invSize texSize outlineSize) texSize = (outlineSize, outlineSize)
    ∧ edgeStrength maskTexture texSize outlineSize vUv
      = |(maskTexture vUv).r - (maskTexture (vUv.1 - outlineSize / texSize.1, vUv.2)).r|
        + |(maskTexture vUv).r - (maskTexture (vUv.1 + outlineSize / texSize.1, vUv.2)).r|
        + |(maskTexture vUv).r - (maskTexture (vUv.1, vUv.2 + outlineSize / texSize.2)).r|
        + |(maskTexture vUv).r - (maskTexture (vUv.1, vUv.2 - outlineSize / texSize.2)).r|
    ∧ edgeDetectionFragment maskTexture sceneTexture texSize edgeColor outlineSize vUv
      = if 1 / 10
            ≤ |(maskTexture vUv).r - (maskTexture (vUv.1 - outlineSize / texSize.1, vUv.2)).r|
              + |(maskTexture vUv).r - (maskTexture (vUv.1 + outlineSize / texSize.1, vUv.2)).r|
              + |(maskTexture vUv).r - (maskTexture (vUv.1, vUv.2 + outlineSize / texSize.2)).r|
              + |(maskTexture vUv).r - (maskTexture (vUv.1, vUv.2 - outlineSize / texSize.2)).r|
        then ⟨edgeColor.1, edgeColor.2.1, edgeColor.2.2, 1⟩ else sceneTexture vUv := by
  refine ⟨?_, edgeStrength_eq maskTexture texSize outlineSize vUv, ?_⟩
  · simp only [vmul, invSize, sdiv, div_mul_cancel₀ _ hx.ne', div_mul_cancel₀ _ hy.ne']
  · rw [edgeDetectionFragment_eq, edgeStrength_eq]
    rfl

/-- C3, instance: the cross mask at texture size 4 by 2 and thickness 1, at the coordinate
(1, 1) where the mask is flat: the strength is below the threshold and the white scene sample
is emitted. -/
theorem edgeDetection_threshold_witness :
    (0 : ℚ) < ((4, 2) : Vec2).1 ∧ (0 : ℚ) < ((4, 2) : Vec2).2
    ∧ edgeStrength crossMask (4, 2) 1 (1, 1) = 0
    ∧ edgeDetectionFragment crossMask whiteScene (4, 2) (0, 0, 0) 1 (1, 1) = ⟨1, 1, 1, 1⟩ := by
  have h := edgeDetection_threshold crossMask whiteScene (4, 2) (0, 0, 0) 1 (1, 1)
    (by norm_num) (by norm_num)
  refine ⟨by norm_num, by norm_num, ?_, ?_⟩
  · rw [h.2.1]
    norm_num [crossMask, abs_div]
  · rw [h.2.2]
    norm_num [crossMask, whiteScene, abs_div]

/-- C3, counterexample: the cross mask has values in [0,1]; at texture size 4 by 2, thickness
1 and the origin its four neighbours differ from the centre by 1/100, 2/100, 3/100 and 4/100,
so the edge strength is exactly 0.1 and does not exceed 0.1, yet the shader emits the edge
colour (black, alpha 1) and not the white scene sample. -/
theorem edgeDetection_at_threshold_is_edge :
    (∀ uv, 0 ≤ (crossMask uv).r ∧ (crossMask uv).r ≤ 1)
    ∧ (0 : ℚ) < ((4, 2) : Vec2).1 ∧ (0 : ℚ) < ((4, 2) : Vec2).2
    ∧ |(crossMask (0, 0)).r - (crossMask (0 - 1 / 4, 0)).r| = 1 / 100
    ∧ |(crossMask (0, 0)).r - (crossMask (0 + 1 / 4, 0)).r| = 2 / 100
    ∧ |(crossMask (0, 0)).r - (crossMask (0, 0 + 1 / 2)).r| = 3 / 100
    ∧ |(crossMask (0, 0)).r - (crossMask (0, 0 - 1 / 2)).r| = 4 / 100
    ∧ edgeStrength crossMask (4, 2) 1 (0, 0) = 1 / 10
    ∧ ¬ (edgeStrength crossMask (4, 2) 1 (0, 0) > 1 / 10)
    ∧ edgeDetectionFragment crossMask whiteScene (4, 2) (0, 0, 0) 1 (0, 0) = ⟨0, 0, 0, 1⟩
    ∧ edgeDetectionFragment crossMask whiteScene (4, 2) (0, 0, 0) 1 (0, 0)
        ≠ whiteScene (0, 0) := by
  refine ⟨?_, by norm_num, by norm_num, by norm_num [crossMask, abs_div], by norm_num [crossMask, abs_div],
    by norm_num [crossMask, abs_div], by norm_num [crossMask, abs_div], crossMask_strength, ?_, ?_, ?_⟩
  · intro uv
    unfold crossMask
    split_ifs <;> norm_num
  · rw [crossMask_strength]; norm_num
  · rw [edgeDetectionFragment_eq, crossMask_strength]; simp [vec4of]
  · rw [edgeDetectionFragment_eq, crossMask_strength]
    simp [vec4of, whiteScene]

/-- C8: with `outlineSize = 0` and a `texSize` with positive components, the edge strength is
0 and the fragment colour is the scene sample at `vUv`, never the edge colour. -/
theorem edgeDetection_zero_outline (maskTexture sceneTexture : Sampler) (texSize : Vec2)
    (edgeColor : Vec3) (vUv : Vec2) (hx : 0 < texSize.1) (hy : 0 < texSize.2) :
    invSize texSize 0 = (0, 0)
    ∧ edgeStrength maskTexture texSize 0 vUv = 0
    ∧ edgeDetectionFragment maskTexture sceneTexture texSize edgeColor 0 vUv
        = sceneTexture vUv := by
  have hinv : invSize texSize 0 = (0, 0) := by
    have ex : (0 : ℚ) / texSize.1 = 0 := (div_eq_iff hx.ne').mpr (zero_mul _).symm
    have ey : (0 : ℚ) / texSize.2 = 0 := (div_eq_iff hy.ne').mpr (zero_mul _).symm
    simp only [invSize, sdiv, ex, ey]
  have hs : edgeStrength maskTexture texSize 0 vUv = 0 := by
    simp [edgeStrength, maskC, maskL, maskR, maskU, maskD, hinv, vadd]
  refine ⟨hinv, hs, ?_⟩
  rw [edgeDetectionFragment_eq, hs]
  norm_num

/-- C8, instance: a mask with an edge at the origin, thickness 0, texture size 800 by 600. -/
theorem edgeDetection_zero_outline_witness :
    (0 : ℚ) < ((800, 600) : Vec2).1 ∧ (0 : ℚ) < ((800, 600) : Vec2).2
    ∧ edgeStrength stepMask (800, 600) 0 (0, 0) = 0
    ∧ edgeDetectionFragment stepMask whiteScene (800, 600) (0, 0, 0) 0 (0, 0)
        = whiteScene (0, 0) :=
  ⟨by norm_num, by norm_num,
    (edgeDetection_zero_outline stepMask whiteScene (800, 600) (0, 0, 0) (0, 0)
      (by norm_num) (by norm_num)).2⟩

/-- C9: for `pixelSize ≤ 1` the pixelation shader returns the input sample at the unmodified
coordinate `vUv`, so the output image is the input image. -/
theorem pixel_passthrough (tDiffuse : Sampler) (resolution : Vec2) (pixelSize : ℚ)
    (h : pixelSize ≤ 1) :
    (fun vUv => pixelFragment tDiffuse resolution pixelSize vUv) = tDiffuse := by
  funext vUv
  simp [pixelFragment, h]

/-- C9, instance: grid size 0 (the panel's "disabled" value) on the gradient image. -/
theorem pixel_passthrough_witness :
    (0 : ℚ) ≤ 1 ∧ (fun vUv => pixelFragment gradient (800, 600) 0 vUv) = gradient :=
  ⟨by norm_num, pixel_passthrough gradient (800, 600) 0 (by norm_num)⟩

theorem floor_centre_div (i N : ℕ) (hN : 0 < N) :
    ⌊((i : ℚ) + 1 / 2) / (N : ℚ)⌋ = ((i / N : ℕ) : ℤ) := by
  have hNq : (0 : ℚ) < N := by exact_mod_cast hN
  rw [Int.floor_eq_iff]
  have h1 : N * (i / N) ≤ i := Nat.mul_div_le i N
  have h2 : i < N * (i / N) + N := by
    have := Nat.lt_div_mul_add (a := i) hN
    rw [Nat.mul_comm]; exact this
  have h1q : (N : ℚ) * ((i / N : ℕ) : ℚ) ≤ i := by exact_mod_cast h1
  have h2q : (i : ℚ) + 1 ≤ (N : ℚ) * ((i / N : ℕ) : ℚ) + N := by exact_mod_cast h2
  simp only [Int.cast_natCast]
  constructor
  · rw [le_div_iff₀ hNq]
    linarith
  · rw [div_lt_iff₀ hNq]
    linarith

theorem pixelCoord_centre (N : ℕ) (W H : ℚ) (i j : ℕ) (hN : 0 < N) (hW : 0 < W) (hH : 0 < H) :
    pixelCoord (W, H) N (pixelCentre W H i j)
      = ((N : ℚ) * ((i / N : ℕ) : ℚ) / W, (N : ℚ) * ((j / N : ℕ) : ℚ) / H) := by
  have hNq : (0 : ℚ) < N := by exact_mod_cast hN
  have ex : ((i : ℚ) + 1 / 2) / W / ((N : ℚ) / W) = ((i : ℚ) + 1 / 2) / N := by
    field_simp
    ring
  have ey : ((j : ℚ) + 1 / 2) / H / ((N : ℚ) / H) = ((j : ℚ) + 1 / 2) / N := by
    field_simp
    ring
  simp only [pixelCoord, pixelCentre, sdiv, vdiv, vmul, vfloor, ex, ey, floor_centre_div _ _ hN,
    Int.cast_natCast]
  ext
  · simp only []; ring
  · simp only []; ring

/-- C7: for an integer grid size `N > 1` and a resolution `(W, H)` with positive components,
two pixel centres in the same `N`-by-`N` block get the same sampling coordinate
`(N * floor(i/N) / W, N * floor(j/N) / H)`; it is an integer multiple of
`gridSize / resolution`, it is not greater than the pixel's own coordinate, and both pixels get
the same colour, the input sampled there. -/
theorem pixel_block_quantization (tDiffuse : Sampler) (N : ℕ) (W H : ℚ) (i j i' j' : ℕ)
    (hN : 1 < N) (hW : 0 < W) (hH : 0 < H) (hi : i / N = i' / N) (hj : j / N = j' / N) :
    pixelCoord (W, H) N (pixelCentre W H i j)
        = ((N : ℚ) * ((i / N : ℕ) : ℚ) / W, (N : ℚ) * ((j / N : ℕ) : ℚ) / H)
    ∧ pixelCoord (W, H) N (pixelCentre W H i' j') = pixelCoord (W, H) N (pixelCentre W H i j)
    ∧ pixelCoord (W, H) N (pixelCentre W H i j)
        = vmul (((i / N : ℕ) : ℚ), ((j / N : ℕ) : ℚ)) (sdiv N (W, H))
    ∧ (pixelCoord (W, H) N (pixelCentre W H i j)).1 ≤ (pixelCentre W H i j).1
    ∧ (pixelCoord (W, H) N (pixelCentre W H i j)).2 ≤ (pixelCentre W H i j).2
    ∧ pixelFragment tDiffuse (W, H) N (pixelCentre W H i j)
        = tDiffuse ((N : ℚ) * ((i / N : ℕ) : ℚ) / W, (N : ℚ) * ((j / N : ℕ) : ℚ) / H)
    ∧ pixelFragment tDiffuse (W, H) N (pixelCentre W H i' j')
        = pixelFragment tDiffuse (W, H) N (pixelCentre W H i j) := by
  have hN0 : 0 < N := by omega
  have hNq : ¬ ((N : ℚ) ≤ 1) := by
    have : (1 : ℚ) < N := by exact_mod_cast hN
    exact not_le.mpr this
  have e := pixelCoord_centre N W H i j hN0 hW hH
  have e' := pixelCoord_centre N W H i' j' hN0 hW hH
  have hsame : pixelCoord (W, H) N (pixelCentre W H i' j')
      = pixelCoord (W, H) N (pixelCentre W H i j) := by
    rw [e, e', hi, hj]
  have h1 : N * (i / N) ≤ i := Nat.mul_div_le i N
  have h2 : N * (j / N) ≤ j := Nat.mul_div_le j N
  have h1q : (N : ℚ) * ((i / N : ℕ) : ℚ) ≤ i := by exact_mod_cast h1
  have h2q : (N : ℚ) * ((j / N : ℕ) : ℚ) ≤ j := by exact_mod_cast h2
  refine ⟨e, hsame, ?_, ?_, ?_, ?_, ?_⟩
  · rw [e]
    simp only [vmul, sdiv]
    ext
    · simp only []; ring
    · simp only []; ring
  · rw [e]
    simp only [pixelCentre]
    apply div_le_div_of_nonneg_right _ hW.le
    linarith
  · rw [e]
    simp only [pixelCentre]
    apply div_le_div_of_nonneg_right _ hH.le
    linarith
  · simp only [pixelFragment, if_neg hNq, e]
  · simp only [pixelFragment, if_neg hNq, hsame]

/-- C7, instance: grid size 4 at 800 by 600; pixels (5, 9) and (7, 10) lie in block (1, 2)
and both sample the gradient image at (4/800, 8/600). -/
theorem pixel_block_quantization_witness :
    pixelFragment gradient (800, 600) (4 : ℕ) (pixelCentre 800 600 7 10)
        = pixelFragment gradient (800, 600) (4 : ℕ) (pixelCentre 800 600 5 9)
    ∧ pixelFragment gradient (800, 600) (4 : ℕ) (pixelCentre 800 600 5 9)
        = gradient ((4 : ℕ) * ((5 / 4 : ℕ) : ℚ) / 800, (4 : ℕ) * ((9 / 4 : ℕ) : ℚ) / 600) :=
  have h := pixel_block_quantization gradient 4 800 600 5 9 7 10
    (by decide) (by norm_num) (by norm_num) (by decide) (by decide)
  ⟨h.2.2.2.2.2.2, h.2.2.2.2.2.1⟩

/-! ## Scene traversal -/

mutual
theorem traverse_eq_foldl {σ : Type} (callback : Object3D → σ → σ) :
    ∀ (o : Object3D) (s : σ),
      o.traverse callback s = (Object3D.objects o).foldl (fun acc x => callback x acc) s
  | .mk i m cs, s => by
    simp only [Object3D.traverse, Object3D.objects, List.foldl_cons]
    exact traverseAll_eq_foldl callback cs _
theorem traverseAll_eq_foldl {σ : Type} (callback : Object3D → σ → σ) :
    ∀ (cs : List Object3D) (s : σ),
      Object3D.traverseAll callback cs s
        = (Object3D.objectsAll cs).foldl (fun acc x => callback x acc) s
  | [], s => rfl
  | c :: cs, s => by
    simp only [Object3D.traverseAll, Object3D.objectsAll, List.foldl_append]
    rw [traverse_eq_foldl callback c s]
    exact traverseAll_eq_foldl callback cs _
end

theorem mem_meshIds (objs : List Object3D) (i : ℕ) :
    i ∈ meshIds objs ↔ ∃ o ∈ objs, o.isMesh = true ∧ o.id = i := by
  simp [meshIds, and_assoc]

theorem foldl_maskCallback_scene (sel : List ℕ) :
    ∀ (objs : List Object3D) (st : List (ℕ × Bool) × SceneState),
      (objs.foldl (fun acc x => maskCallback sel x acc) st).2.background = st.2.background
      ∧ ∀ i, (objs.foldl (fun acc x => maskCallback sel x acc) st).2.visible i
          = if i ∈ meshIds objs then decide (i ∈ sel) else st.2.visible i
  | [], st => by simp [meshIds]
  | o :: objs, st => by
    have ih := foldl_maskCallback_scene sel objs (maskCallback sel o st)
    simp only [List.foldl_cons]
    by_cases hm : o.isMesh = true
    · have hcb : maskCallback sel o st
          = (st.1 ++ [(o.id, st.2.visible o.id)],
              st.2.setVisible o.id (decide (o.id ∈ sel))) := by
        simp [maskCallback, hm]
      rw [hcb] at ih
      refine ⟨by rw [hcb]; exact ih.1, fun i => ?_⟩
      rw [hcb, ih.2 i]
      have hids : meshIds (o :: objs) = o.id :: meshIds objs := by
        simp [meshIds, List.filter_cons, hm]
      rw [hids]
      by_cases hi : i ∈ meshIds objs
      · simp [hi]
      · by_cases hio : i = o.id
        · subst hio
          simp [SceneState.setVisible]
        · simp [hi, hio, SceneState.setVisible, Function.update_noteq hio]
    · have hcb : maskCallback sel o st = st := by
        simp [maskCallback, hm]
      have hids : meshIds (o :: objs) = meshIds objs := by
        simp [meshIds, List.filter_cons, hm]
      rw [hcb] at ih ⊢
      rw [hids]
      exact ih

theorem foldl_maskCallback_old (sel : List ℕ) :
    ∀ (objs : List Object3D) (st : List (ℕ × Bool) × SceneState),
      (objs.map Object3D.id).Nodup →
      (objs.foldl (fun acc x => maskCallback sel x acc) st).1
        = st.1 ++ (objs.filter Object3D.isMesh).map (fun o => (o.id, st.2.visible o.id))
  | [], st, _ => by simp
  | o :: objs, st, hnd => by
    rw [List.map_cons, List.nodup_cons] at hnd
    have ih := foldl_maskCallback_old sel objs (maskCallback sel o st) hnd.2
    simp only [List.foldl_cons]
    rw [ih]
    by_cases hm : o.isMesh = true
    · have hcb : maskCallback sel o st
          = (st.1 ++ [(o.id, st.2.visible o.id)],
              st.2.setVisible o.id (decide (o.id ∈ sel))) := by
        simp [maskCallback, hm]
      rw [hcb]
      simp only [List.filter_cons, hm, if_true, List.map_cons, List.append_assoc,
        List.singleton_append]
      congr 2
      apply List.map_congr_left
      intro x hx
      have hxo : x.id ≠ o.id := by
        intro h
        apply hnd.1
        rw [← h]
        exact List.mem_map_of_mem _ (List.mem_of_mem_filter hx)
      simp [SceneState.setVisible, Function.update_noteq hxo]
    · have hcb : maskCallback sel o st = st := by
        simp [maskCallback, hm]
      rw [hcb]
      simp [List.filter_cons, hm]

theorem restoreVisible_map (f : ℕ → Bool) :
    ∀ (objs : List Object3D) (s : SceneState),
      (restoreVisible (objs.map (fun o => (o.id, f o.id))) s).background = s.background
      ∧ ∀ i, (restoreVisible (objs.map (fun o => (o.id, f o.id))) s).visible i
          = if i ∈ objs.map Object3D.id then f i else s.visible i
  | [], s => by simp [restoreVisible]
  | o :: objs, s => by
    have ih := restoreVisible_map f objs (s.setVisible o.id (f o.id))
    unfold restoreVisible at ih ⊢
    simp only [List.map_cons, List.foldl_cons]
    refine ⟨ih.1, fun i => ?_⟩
    rw [ih.2 i]
    by_cases hi : i ∈ objs.map Object3D.id
    · simp [hi]
    · by_cases hio : i = o.id
      · subst hio
        simp [SceneState.setVisible]
      · simp [hi, hio, SceneState.setVisible, Function.update_noteq hio]

theorem prepareMask_eq (root : Object3D) (sel : List ℕ) (s : SceneState) :
    prepareMask root sel s
      = (Object3D.objects root).foldl (fun acc x => maskCallback sel x acc)
          ([], { s with background := none }) := by
  unfold prepareMask
  exact traverse_eq_foldl _ _ _

theorem prepareMask_scene (root : Object3D) (sel : List ℕ) (s : SceneState) :
    (prepareMask root sel s).2.background = none
    ∧ ∀ i, (prepareMask root sel s).2.visible i
        = if i ∈ meshIds (Object3D.objects root) then decide (i ∈ sel) else s.visible i := by
  rw [prepareMask_eq]
  exact foldl_maskCallback_scene sel _ _

theorem restore_prepareMask (root : Object3D) (sel : List ℕ) (s : SceneState)
    (hnd : root.ids.Nodup) (i : ℕ) :
    (restoreVisible (prepareMask root sel s).1 (prepareMask root sel s).2).visible i
      = s.visible i := by
  have hold := foldl_maskCallback_old sel (Object3D.objects root)
    ([], { s with background := none }) hnd
  rw [← prepareMask_eq] at hold
  rw [hold]
  simp only [List.nil_append]
  rw [(restoreVisible_map s.visible _ _).2 i, (prepareMask_scene root sel s).2 i]
  by_cases hi : i ∈ meshIds (Object3D.objects root)
  · have : i ∈ ((Object3D.objects root).filter Object3D.isMesh).map Object3D.id := hi
    simp [this]
  · have : i ∉ ((Object3D.objects root).filter Object3D.isMesh).map Object3D.id := hi
    simp [this, hi]

/-! ## `MinimalOutlinePass.render` -/

theorem length_ne_zero_of_ne_nil {α : Type} (l : List α) (h : l ≠ []) : ¬ l.length = 0 := by
  intro h0
  exact h (List.length_eq_zero.mp h0)

theorem render_empty {G : Type} (renderer : Renderer G) (wb rb : RenderTarget) (w : World G)
    (h : w.pass.selectedObjects = []) : render renderer wb rb w = (.returned, w) := by
  simp [render, h]

theorem render_of_mask_error {G : Type} (renderer : Renderer G) (wb rb : RenderTarget)
    (w : World G) (e : String) (hsel : w.pass.selectedObjects ≠ [])
    (herr : renderMask renderer w.pass.renderTargetMaskBuffer w.root
      (prepareMask w.root w.pass.selectedObjects w.scene).2 w.gpu = .error e) :
    render renderer wb rb w
      = (.threw e, { w with scene := (prepareMask w.root w.pass.selectedObjects w.scene).2 }) := by
  simp only [render, length_ne_zero_of_ne_nil _ hsel, if_false, herr]

theorem render_returned_scene {G : Type} (renderer : Renderer G) (wb rb : RenderTarget)
    (w : World G) (hsel : w.pass.selectedObjects ≠ [])
    (hret : (render renderer wb rb w).1 = .returned) :
    (render renderer wb rb w).2.scene
      = { restoreVisible (prepareMask w.root w.pass.selectedObjects w.scene).1
            (prepareMask w.root w.pass.selectedObjects w.scene).2 with
          background := w.scene.background } := by
  simp only [render, length_ne_zero_of_ne_nil _ hsel, if_false] at hret ⊢
  split
  · rename_i e he
    rw [he] at hret
    simp at hret
  · rename_i g3 hg3
    rw [hg3] at hret
    simp only at hret ⊢
    split <;> rfl

/-- C1: for a scene graph of distinct objects and a non-empty selection, when `render` returns
normally every object has the visible flag it had before the call and the scene has the
background it had before the call. -/
theorem render_restores_scene {G : Type} (renderer : Renderer G) (wb rb : RenderTarget)
    (w : World G) (hsel : w.pass.selectedObjects ≠ []) (hnd : w.root.ids.Nodup)
    (hret : (render renderer wb rb w).1 = .returned) :
    (∀ i, (render renderer wb rb w).2.scene.visible i = w.scene.visible i)
    ∧ (render renderer wb rb w).2.scene.background = w.scene.background := by
  rw [render_returned_scene renderer wb rb w hsel hret]
  exact ⟨fun i => restore_prepareMask w.root w.pass.selectedObjects w.scene hnd i, rfl⟩

/-- C1, instance: the sample world drawn by a renderer that never raises; `render` returns
normally and the flags and background are the pre-call ones. -/
theorem render_restores_scene_witness :
    (render (webgl flatRaster) demoWrite demoRead (demoWorld demoGPU)).1 = .returned
    ∧ (∀ i, (render (webgl flatRaster) demoWrite demoRead (demoWorld demoGPU)).2.scene.visible i
        = demoScene.visible i)
    ∧ (render (webgl flatRaster) demoWrite demoRead (demoWorld demoGPU)).2.scene.background
        = some 7 :=
  ⟨by decide,
    render_restores_scene (webgl flatRaster) demoWrite demoRead (demoWorld demoGPU)
      (by decide) (by decide) (by decide)⟩

/-- C2, at the failing input: right after `init` (empty selection, `needsSwap` true) the call
returns at once and changes nothing, so the next stage reads the write buffer's old content
(transparent black here) and not the image that was in the read buffer (white here). -/
theorem empty_selection_stale_output :
    idleWorld.pass.selectedObjects = []
    ∧ idleWorld.pass.needsSwap = true
    ∧ render (webgl flatRaster) demoWrite demoRead idleWorld = (.returned, idleWorld)
    ∧ nextStageInput (render (webgl flatRaster) demoWrite demoRead idleWorld).2.pass
        demoWrite demoRead (render (webgl flatRaster) demoWrite demoRead idleWorld).2.gpu (0, 0)
        = ⟨0, 0, 0, 0⟩
    ∧ idleWorld.gpu.image (some demoRead.id) (0, 0) = ⟨1, 1, 1, 1⟩ := by
  have h : render (webgl flatRaster) demoWrite demoRead idleWorld = (.returned, idleWorld) :=
    render_empty _ _ _ _ rfl
  refine ⟨rfl, rfl, h, ?_, ?_⟩
  · rw [h]
    simp [nextStageInput, idleWorld, MinimalOutlinePass.new, demoGPU, demoWrite]
  · simp [idleWorld, demoGPU, demoRead, whiteScene]

/-- C4, amended: for a non-empty selection, if the render step into the mask buffer raises,
`render` is left by that exception with nothing restored: the background is `null`, every mesh
of the scene has the flag "is selected", and the objects that are not meshes have the flags
they had before the call. -/
theorem render_failure_leaves_override {G : Type} (renderer : Renderer G)
    (wb rb : RenderTarget) (w : World G) (e : String) (hsel : w.pass.selectedObjects ≠ [])
    (herr : renderMask renderer w.pass.renderTargetMaskBuffer w.root
      (prepareMask w.root w.pass.selectedObjects w.scene).2 w.gpu = .error e) :
    (render renderer wb rb w).1 = .threw e
    ∧ (render renderer wb rb w).2.scene.background = none
    ∧ (∀ o ∈ Object3D.objects w.root, o.isMesh = true →
        (render renderer wb rb w).2.scene.visible o.id = decide (o.id ∈ w.pass.selectedObjects))
    ∧ (∀ i, i ∉ meshIds (Object3D.objects w.root) →
        (render renderer wb rb w).2.scene.visible i = w.scene.visible i) := by
  rw [render_of_mask_error renderer wb rb w e hsel herr]
  have hp := prepareMask_scene w.root w.pass.selectedObjects w.scene
  refine ⟨rfl, hp.1, fun o ho hm => ?_, fun i hi => ?_⟩
  · have hmem : o.id ∈ meshIds (Object3D.objects w.root) :=
      (mem_meshIds _ _).mpr ⟨o, ho, hm, rfl⟩
    simp only [hp.2 o.id, if_pos hmem]
  · simp only [hp.2 i, if_neg hi]

/-- C4, instance: the sample world with a renderer whose scene draw raises. -/
theorem render_failure_leaves_override_witness :
    (render lostContext demoWrite demoRead (demoWorld ())).1 = .threw "context lost"
    ∧ (render lostContext demoWrite demoRead (demoWorld ())).2.scene.background = none :=
  have h := render_failure_leaves_override lostContext demoWrite demoRead (demoWorld ())
    "context lost" (by decide) rfl
  ⟨h.1, h.2.1⟩

/-- C4, counterexample: in the sample world the scene draw raises; when control leaves
`render` the background is `null` although it was 7 before the call, and mesh 5 is invisible
although it was visible before the call. -/
theorem render_failure_not_restored :
    demoPass.selectedObjects ≠ []
    ∧ (render lostContext demoWrite demoRead (demoWorld ())).1 = .threw "context lost"
    ∧ demoScene.background = some 7
    ∧ (render lostContext demoWrite demoRead (demoWorld ())).2.scene.background = none
    ∧ demoScene.visible 5 = true
    ∧ (render lostContext demoWrite demoRead (demoWorld ())).2.scene.visible 5 = false := by
  decide

/-- C6, amended: for a non-empty selection, the scene state that `render` hands to
`renderer.render` for the mask has a `null` background, every mesh of the scene has its own
visible flag equal to "is in selectedObjects", and every object that is not a mesh has the
flag it had before the call. -/
theorem mask_render_visibility (wb rb : RenderTarget) (w : World (List SceneState))
    (hsel : w.pass.selectedObjects ≠ []) :
    ∃ s, (render probe wb rb w).2.gpu = w.gpu ++ [s]
      ∧ s.background = none
      ∧ (∀ o ∈ Object3D.objects w.root, o.isMesh = true →
          s.visible o.id = decide (o.id ∈ w.pass.selectedObjects))
      ∧ (∀ i, i ∉ meshIds (Object3D.objects w.root) → s.visible i = w.scene.visible i) := by
  have hp := prepareMask_scene w.root w.pass.selectedObjects w.scene
  refine ⟨(prepareMask w.root w.pass.selectedObjects w.scene).2, ?_, hp.1,
    fun o ho hm => ?_, fun i hi => ?_⟩
  · simp [render, length_ne_zero_of_ne_nil _ hsel, renderMask, renderQuad, probe]
  · have hmem : o.id ∈ meshIds (Object3D.objects w.root) :=
      (mem_meshIds _ _).mpr ⟨o, ho, hm, rfl⟩
    simp only [hp.2 o.id, if_pos hmem]
  · simp only [hp.2 i, if_neg hi]

/-- C6, instance: the sample world, with an empty log before the call. -/
theorem mask_render_visibility_witness :
    ∃ s, (render probe demoWrite demoRead (demoWorld [])).2.gpu = [] ++ [s]
      ∧ s.background = none
      ∧ (∀ o ∈ Object3D.objects demoRoot, o.isMesh = true →
          s.visible o.id = decide (o.id ∈ demoPass.selectedObjects))
      ∧ (∀ i, i ∉ meshIds (Object3D.objects demoRoot) → s.visible i = demoScene.visible i) :=
  mask_render_visibility demoWrite demoRead (demoWorld []) (by decide)

/-- C6, counterexample: in the sample world with meshes 1 and 4 selected, the objects that are
effectively visible when the mask is drawn are the scene 0, mesh 1 and the line 2: the line is
drawn without being selected, and the selected mesh 4 is hidden by its invisible parent. -/
theorem mask_render_not_exactly_selection :
    demoPass.selectedObjects = [1, 4]
    ∧ (render probe demoWrite demoRead (demoWorld [])).2.gpu.map
        (fun s => effectivelyVisible s true demoRoot) = [[0, 1, 2]] := by
  decide

/-! ## `loadModel` -/

theorem removeChild_not_mem :
    ∀ (cs : List Object3D) (i : ℕ), (cs.map Object3D.id).Nodup →
      i ∉ (removeChild cs i).map Object3D.id
  | [], _, _ => by simp [removeChild]
  | c :: cs, i, hnd => by
    rw [List.map_cons, List.nodup_cons] at hnd
    unfold removeChild
    split_ifs with h
    · rw [← h]
      exact hnd.1
    · rw [List.map_cons, List.mem_cons, not_or]
      exact ⟨fun hi => h hi.symm, removeChild_not_mem cs i hnd.2⟩

theorem children_remove (parent obj : Object3D) :
    (parent.remove obj).children = removeChild parent.children obj.id := by
  cases parent
  rfl

/-- C5, amended: when a model is displayed and `loadModel` is called with a fetch or parse
that fails, `currentModel` still refers to the previous model, but that model has been removed
from the children of the scene and `selectedObjects` is empty. -/
theorem loadModel_failure_removes_model (a : App) (m : Object3D) (modelName : String)
    (hcur : a.currentModel = some m) (hnd : (a.scene.children.map Object3D.id).Nodup) :
    (loadModel modelName none a).currentModel = some m
    ∧ (loadModel modelName none a).scene.children = removeChild a.scene.children m.id
    ∧ m.id ∉ (loadModel modelName none a).scene.children.map Object3D.id
    ∧ (loadModel modelName none a).outlinePass.selectedObjects = [] := by
  have hch : (loadModel modelName none a).scene.children
      = removeChild a.scene.children m.id := by
    simp only [loadModel, loadModelStart, hcur, children_remove]
  refine ⟨?_, hch, ?_, ?_⟩
  · simp only [loadModel, loadModelStart, hcur]
  · rw [hch]
    exact removeChild_not_mem _ _ hnd
  · simp only [loadModel, loadModelStart, hcur]

/-- C5, instance: the application showing `demoModel`, then a failed load of "test2.glb". -/
theorem loadModel_failure_removes_model_witness :
    (loadModel "test2.glb" none demoApp).currentModel = some demoModel
    ∧ (loadModel "test2.glb" none demoApp).scene.children
        = removeChild demoApp.scene.children demoModel.id
    ∧ demoModel.id ∉ (loadModel "test2.glb" none demoApp).scene.children.map Object3D.id
    ∧ (loadModel "test2.glb" none demoApp).outlinePass.selectedObjects = [] :=
  loadModel_failure_removes_model demoApp demoModel "test2.glb" rfl (by decide)

/-- C5, counterexample: `demoModel` (root 20, meshes 21 and 22) is displayed; after a failed
load the root 20 is no longer a child of the scene and `selectedObjects` is empty instead of
holding 21 and 22. -/
theorem loadModel_failure_not_in_place :
    demoApp.currentModel.map Object3D.id = some 20
    ∧ 20 ∈ demoApp.scene.children.map Object3D.id
    ∧ demoApp.outlinePass.selectedObjects = [21, 22]
    ∧ 20 ∉ (loadModel "test2.glb" none demoApp).scene.children.map Object3D.id
    ∧ (loadModel "test2.glb" none demoApp).outlinePass.selectedObjects = [] := by
  decide

/-! ## `setSize`, `init`, `onResize` -/

/-- C10: `setSize(w, h)` makes the mask buffer exactly `w` by `h` and sets the `texSize`
uniform to `(w, h)`, leaving the other uniforms, the selection and the other fields of the pass
as they were; after `init`, and after `onResize` from any state, the mask buffer, `texSize` and
the pixelation `resolution` uniform all equal the container's width and height, and `onResize`
leaves the scene graph, the scene state and the selection as they were. -/
theorem setSize_keeps_resolution :
    (∀ (p : MinimalOutlinePass) (w h : ℚ),
      (p.setSize w h).renderTargetMaskBuffer.width = w
      ∧ (p.setSize w h).renderTargetMaskBuffer.height = h
      ∧ (p.setSize w h).uniforms.texSize = (w, h)
      ∧ (p.setSize w h).uniforms.edgeColor = p.uniforms.edgeColor
      ∧ (p.setSize w h).uniforms.outlineSize = p.uniforms.outlineSize
      ∧ (p.setSize w h).uniforms.maskTexture = p.uniforms.maskTexture
      ∧ (p.setSize w h).uniforms.sceneTexture = p.uniforms.sceneTexture
      ∧ (p.setSize w h).selectedObjects = p.selectedObjects
      ∧ (p.setSize w h).renderTargetMaskBuffer.id = p.renderTargetMaskBuffer.id
      ∧ (p.setSize w h).enabled = p.enabled
      ∧ (p.setSize w h).needsSwap = p.needsSwap
      ∧ (p.setSize w h).renderToScreen = p.renderToScreen)
    ∧ (∀ c : Container,
      (init c).outlinePass.renderTargetMaskBuffer.width = c.clientWidth
      ∧ (init c).outlinePass.renderTargetMaskBuffer.height = c.clientHeight
      ∧ (init c).outlinePass.uniforms.texSize = (c.clientWidth, c.clientHeight)
      ∧ (init c).pixelPass.resolution = (c.clientWidth, c.clientHeight)
      ∧ (init c).container = c)
    ∧ (∀ a : App,
      (onResize a).outlinePass.renderTargetMaskBuffer.width = a.container.clientWidth
      ∧ (onResize a).outlinePass.renderTargetMaskBuffer.height = a.container.clientHeight
      ∧ (onResize a).outlinePass.uniforms.texSize
          = (a.container.clientWidth, a.container.clientHeight)
      ∧ (onResize a).pixelPass.resolution = (a.container.clientWidth, a.container.clientHeight)
      ∧ (onResize a).container = a.container
      ∧ (onResize a).outlinePass.uniforms.edgeColor = a.outlinePass.uniforms.edgeColor
      ∧ (onResize a).outlinePass.uniforms.outlineSize = a.outlinePass.uniforms.outlineSize
      ∧ (onResize a).outlinePass.selectedObjects = a.outlinePass.selectedObjects
      ∧ (onResize a).sceneState.visible = a.sceneState.visible
      ∧ (onResize a).sceneState.background = a.sceneState.background
      ∧ (onResize a).scene.ids = a.scene.ids) := by
  refine ⟨fun p w h => ?_, fun c => ?_, fun a => ?_⟩
  · simp [MinimalOutlinePass.setSize, RenderTarget.setSize]
  · simp [init, MinimalOutlinePass.setSize, RenderTarget.setSize, MinimalOutlinePass.new]
  · simp [onResize, composerSetSize, MinimalOutlinePass.setSize, RenderTarget.setSize]

end OutlineShader
